import Mathlib

/-!
Verification development for the spectral raytracer core.

Floating point numbers (`f32`/`f64`) are modelled as exact rationals `ℚ`;
machine integers (`u32`) as naturals reduced mod 2^32 where the source wraps.
Fallible code (Rust `Result`, assertion panics, slice-index panics) is
modelled with explicit result types (`Option`, `BlendResult`, ...), where the
error-free branch mirrors the source line by line.
-/

namespace CustomImageModel

/-- Model of `custom_image.rs::Pixel`: four f32 channels. -/
structure Pixel where
  r : ℚ
  g : ℚ
  b : ℚ
  a : ℚ
deriving DecidableEq, Repr

/-- Model of `custom_image.rs::CustomImage`: width, height and a flat channel
buffer (length `width*height*4` for images built by the constructors). -/
structure CustomImage where
  width : ℕ
  height : ℕ
  data : List ℚ
deriving DecidableEq, Repr

/-- Outcome of a blending call: an assertion/index panic, a returned
`CustomImageError` (the image is left as it was), or success. -/
inductive BlendResult where
  | panicked : BlendResult
  | errored : CustomImage → BlendResult
  | ok : CustomImage → BlendResult
deriving DecidableEq, Repr

/-- Model of `CustomImage::new`: zero-filled buffer of length width*height*4. -/
def CustomImage.new (width height : ℕ) : CustomImage :=
  { width := width, height := height, data := List.replicate (width * height * 4) 0 }

/-- Model of `CustomImage::blend_pixel`.  The internal `assert_eq!` on the data
length is modelled as `panicked`; the out-of-bounds check returns the error
variant carrying the untouched image; otherwise the four channels at the pixel
index are blended `old*(1-w) + new*w`. -/
def CustomImage.blend_pixel (img : CustomImage) (x y : ℕ) (pixel : Pixel)
    (new_weight_factor : ℚ) : BlendResult :=
  let pixel_size := 4
  let row_length := pixel_size * img.width
  if row_length * img.height ≠ img.data.length then BlendResult.panicked
  else if x ≥ img.width ∨ y ≥ img.height then BlendResult.errored img
  else
    let old_factor := 1 - new_weight_factor
    let index := y * row_length + x * pixel_size
    let d0 := img.data
    let d1 := d0.set index (d0.getD index 0 * old_factor + pixel.r * new_weight_factor)
    let d2 := d1.set (index + 1) (d1.getD (index + 1) 0 * old_factor + pixel.g * new_weight_factor)
    let d3 := d2.set (index + 2) (d2.getD (index + 2) 0 * old_factor + pixel.b * new_weight_factor)
    let d4 := d3.set (index + 3) (d3.getD (index + 3) 0 * old_factor + pixel.a * new_weight_factor)
    BlendResult.ok { img with data := d4 }

/-- The loop body of `CustomImage::blend_row`: iterates `x` upward for `cnt`
more steps; each step first indexes `pixels[x]` (a panic when `x` is out of
range of the slice) and then calls `blend_pixel`, propagating its error. -/
def blend_row_aux (pixels : List Pixel) (row_number : ℕ) (w : ℚ) :
    ℕ → ℕ → CustomImage → BlendResult
  | 0, _, img => BlendResult.ok img
  | cnt + 1, x, img =>
    match pixels.get? x with
    | none => BlendResult.panicked
    | some p =>
      match img.blend_pixel x row_number p w with
      | BlendResult.panicked => BlendResult.panicked
      | BlendResult.errored i => BlendResult.errored i
      | BlendResult.ok img2 => blend_row_aux pixels row_number w cnt (x + 1) img2

/-- The image carried by a `BlendResult` (for `ok`/`errored`); a placeholder
for a panic, which returns no image. -/
def resultImage : BlendResult → CustomImage
  | BlendResult.panicked => CustomImage.new 0 0
  | BlendResult.errored i => i
  | BlendResult.ok i => i

/-- Model of `CustomImage::blend_row`.  Note the source computes
`row_length = size_of::<Pixel>() * width` (= 16 * width, since `Pixel` is four
f32) and loops `for x in 0..row_length`, indexing `pixels[x]` each step. -/
def CustomImage.blend_row (img : CustomImage) (pixels : List Pixel)
    (row_number : ℕ) (new_weight_factor : ℚ) : BlendResult :=
  if pixels.length ≠ img.width then BlendResult.errored img
  else if row_number ≥ img.height then BlendResult.errored img
  else
    let pixel_size := 16
    let row_length := pixel_size * img.width
    blend_row_aux pixels row_number new_weight_factor row_length 0 img

end CustomImageModel

namespace SpectrumModel

/-- Maximum sample capacity, `spectrum.rs::NBR_OF_SAMPLES_MAX`. -/
def NBR_OF_SAMPLES_MAX : ℕ := 128

/-- Model of `spectrum.rs::Spectrum`.  The fixed `[f32; 128]` backing array is a
list of length 128 (maintained by the constructors); the single
`SpectrumType::EquidistantSamples(lower, upper)` variant is inlined as the two
bound fields. -/
structure Spectrum where
  nbr_of_samples : ℕ
  intensities : List ℚ
  lower_wavelength : ℚ
  upper_wavelength : ℚ
deriving DecidableEq, Repr

/-- Model of `Spectrum::new_from_list` (the list comes padded to capacity). -/
def Spectrum.new_from_list (intensities : List ℚ) (lowest highest : ℚ)
    (nbr_of_samples : ℕ) : Spectrum :=
  { nbr_of_samples := nbr_of_samples, intensities := intensities,
    lower_wavelength := lowest, upper_wavelength := highest }

/-- Model of `Spectrum::new_singular_reflectance_factor`: a flat spectrum. -/
def Spectrum.new_singular_reflectance_factor (lowest highest : ℚ)
    (nbr_of_samples : ℕ) (reflectance_factor : ℚ) : Spectrum :=
  Spectrum.new_from_list (List.replicate NBR_OF_SAMPLES_MAX reflectance_factor)
    lowest highest nbr_of_samples

/-- Model of `impl AddAssign<&Spectrum> for Spectrum`: asserts equal sample
counts and a sample count divisible by 8 (`none` on violation), then adds the
first `nbr_of_samples` entries element-wise in place.  The loop indexes the
fixed `[f32; 128]` arrays at `0..nbr_of_samples`, so a sample count above the
capacity panics with index-out-of-bounds at `i = 128` (the inner `none`). -/
def Spectrum.addAssign (s rhs : Spectrum) : Option Spectrum :=
  if s.nbr_of_samples = rhs.nbr_of_samples ∧ s.nbr_of_samples % 8 = 0 then
    if s.nbr_of_samples ≤ NBR_OF_SAMPLES_MAX then
      some { s with intensities :=
        s.intensities.mapIdx fun i v =>
          if i < s.nbr_of_samples then v + rhs.intensities.getD i 0 else v }
    else none
  else none

/-- Model of `impl MulAssign<&Spectrum> for Spectrum`: same assertions and
same `[f32; 128]` index-out-of-bounds panic beyond the capacity as
add-assign, element-wise multiplication in place. -/
def Spectrum.mulAssign (s rhs : Spectrum) : Option Spectrum :=
  if s.nbr_of_samples = rhs.nbr_of_samples ∧ s.nbr_of_samples % 8 = 0 then
    if s.nbr_of_samples ≤ NBR_OF_SAMPLES_MAX then
      some { s with intensities :=
        s.intensities.mapIdx fun i v =>
          if i < s.nbr_of_samples then v * rhs.intensities.getD i 0 else v }
    else none
  else none

/-- Model of `impl Mul<&Spectrum> for &Spectrum`: the operand assertions plus
the capacity bound (for `nbr_of_samples > 128` the loop indexing panics
before `Spectrum::new` would re-assert `% 8 = 0` and `≤ 128`; the `none`
covers either panic); keeps the left operand's spectrum type (bounds). -/
def Spectrum.mulOp (s rhs : Spectrum) : Option Spectrum :=
  if s.nbr_of_samples = rhs.nbr_of_samples ∧ s.nbr_of_samples % 8 = 0 ∧
      s.nbr_of_samples ≤ NBR_OF_SAMPLES_MAX then
    some { s with intensities :=
      s.intensities.mapIdx fun i v =>
        if i < s.nbr_of_samples then v * rhs.intensities.getD i 0 else v }
  else none

/-- Model of `impl Div<&Spectrum> for &Spectrum`: the operand assertions plus
the capacity bound (loop index panic or `Spectrum::new` assertion);
element-wise division (rational division standing in for f32 division),
keeping the left operand's bounds. -/
def Spectrum.divOp (s rhs : Spectrum) : Option Spectrum :=
  if s.nbr_of_samples = rhs.nbr_of_samples ∧ s.nbr_of_samples % 8 = 0 ∧
      s.nbr_of_samples ≤ NBR_OF_SAMPLES_MAX then
    some { s with intensities :=
      s.intensities.mapIdx fun i v =>
        if i < s.nbr_of_samples then v / rhs.intensities.getD i 0 else v }
  else none

/-- Model of `spectrum.rs::linear_interpolate_halved`: `none` models one of the
four assertion panics; otherwise each of the `target_length` output values is
linearly interpolated from the input at position `len/target * i`, clamping to
the last value when the upper neighbour index falls off the end. -/
def linear_interpolate_halved (original_values : List ℚ) (target_length : ℕ) :
    Option (List ℚ) :=
  let original_length := original_values.length
  if original_length > 1 ∧ target_length > 1 ∧ original_length ≥ target_length ∧
      original_length / 2 ≤ target_length then
    some ((List.range target_length).map fun i =>
      let factor : ℚ := (original_length : ℚ) / (target_length : ℚ)
      let original_pos := factor * (i : ℚ)
      let index := (⌊original_pos⌋).toNat
      let ratio := original_pos - (⌊original_pos⌋ : ℚ)
      if index + 1 < original_length then
        original_values.getD index 0 * (1 - ratio) +
          original_values.getD (index + 1) 0 * ratio
      else
        original_values.getD index 0)
  else none

/-- Model of `spectrum.rs::collapse_list_to_half`: asserts length > 8, halves
the length rounding up to the next multiple of 8, then interpolates. -/
def collapse_list_to_half (list : List ℚ) : Option (List ℚ) :=
  if list.length > 8 then
    let h := list.length / 2
    let half_length := if h % 8 ≠ 0 then (h / 8 + 1) * 8 else h
    linear_interpolate_halved list half_length
  else none

/-- Model of `spectrum.rs::slice_to_array_128`: pad with zeroes to length 128,
truncating a longer input. -/
def slice_to_array_128 (input : List ℚ) : List ℚ :=
  (input.take NBR_OF_SAMPLES_MAX) ++
    List.replicate (NBR_OF_SAMPLES_MAX - input.length) 0

/-- The `while current_nbr_of_samples > 2 * new_sample_amount` loop inside
`Spectrum::resample` (down-sampling).  Note the source slices
`working_list[0..self.nbr_of_samples]` with the ORIGINAL sample count `origN`
each iteration; a slice beyond the list length is a panic (`none`).  `fuel`
bounds the recursion; 200 far exceeds the possible number of halvings of a
list of at most 128 samples. -/
def resampleLoop (origN new_sample_amount : ℕ) :
    ℕ → List ℚ → ℕ → Option (List ℚ)
  | 0, _, _ => none
  | fuel + 1, working_list, current_nbr_of_samples =>
    if current_nbr_of_samples > 2 * new_sample_amount then
      if origN ≤ working_list.length then
        match collapse_list_to_half (working_list.take origN) with
        | none => none
        | some w =>
          resampleLoop origN new_sample_amount fuel w w.length
      else none
    else some working_list

/-- Model of `Spectrum::resample`.  `none` models any assertion or slice-index
panic on the way; `some` is the mutated spectrum. -/
def Spectrum.resample (s : Spectrum) (new_sample_amount : ℕ) : Option Spectrum :=
  if new_sample_amount > 1 ∧ new_sample_amount ≤ NBR_OF_SAMPLES_MAX ∧
      s.nbr_of_samples % 8 = 0 ∧ new_sample_amount % 8 = 0 then
    if new_sample_amount = s.nbr_of_samples then some s
    else if new_sample_amount < s.nbr_of_samples then
      match resampleLoop s.nbr_of_samples new_sample_amount 200
          (s.intensities.take s.nbr_of_samples) s.nbr_of_samples with
      | none => none
      | some working_list =>
        match linear_interpolate_halved working_list new_sample_amount with
        | none => none
        | some final_list =>
          some { s with nbr_of_samples := new_sample_amount,
                        intensities := slice_to_array_128 final_list }
    else
      let new_arr := (List.range NBR_OF_SAMPLES_MAX).map fun i =>
        if i < new_sample_amount then
          let index : ℚ := (i : ℚ) / ((new_sample_amount : ℚ) - 1) *
            ((s.nbr_of_samples : ℚ) - 1)
          let index_frac := index - (⌊index⌋ : ℚ)
          let index_lower := (⌊index⌋).toNat
          let index_upper := index_lower + 1
          s.intensities.getD index_lower 0 * (1 - index_frac) +
            s.intensities.getD index_upper 0 * index_frac
        else 0
      some { s with nbr_of_samples := new_sample_amount, intensities := new_arr }
  else none

/-- Model of `spectrum.rs::WAVELENGTH_TO_XYZ_TABLE`: 81 samples at 5 nm
intervals from 380 nm to 780 nm (decimal literals are exact in `ℚ`). -/
def WAVELENGTH_TO_XYZ_TABLE : List (ℚ × ℚ × ℚ) := [
  (0.00016, 0.000017, 0.000705),
  (0.000662, 0.000072, 0.002928),
  (0.002362, 0.000253, 0.010482),
  (0.007242, 0.000769, 0.032344),
  (0.01911, 0.002004, 0.086011),
  (0.0434, 0.004509, 0.197120),
  (0.084736, 0.008756, 0.389366),
  (0.140638, 0.014456, 0.656760),
  (0.204492, 0.021391, 0.972542),
  (0.264737, 0.029497, 1.28250),
  (0.314679, 0.038676, 1.55348),
  (0.357719, 0.049602, 1.79850),
  (0.383734, 0.062077, 1.96728),
  (0.386726, 0.074704, 2.02730),
  (0.370702, 0.089456, 1.99480),
  (0.342957, 0.106256, 1.90070),
  (0.302273, 0.128201, 1.74537),
  (0.254085, 0.152761, 1.55490),
  (0.195618, 0.18519, 1.31756),
  (0.132349, 0.21994, 1.03020),
  (0.080507, 0.253589, 0.772125),
  (0.041072, 0.297665, 0.570060),
  (0.016172, 0.339133, 0.415254),
  (0.005132, 0.395379, 0.302356),
  (0.003816, 0.460777, 0.218502),
  (0.015444, 0.53136, 0.159249),
  (0.037465, 0.606741, 0.112044),
  (0.071358, 0.68566, 0.082248),
  (0.117749, 0.761757, 0.060709),
  (0.172953, 0.82333, 0.043050),
  (0.236491, 0.875211, 0.030451),
  (0.304213, 0.92381, 0.020584),
  (0.376772, 0.961988, 0.013676),
  (0.451584, 0.9822, 0.007918),
  (0.529826, 0.991761, 0.003988),
  (0.616053, 0.99911, 0.001091),
  (0.705224, 0.99734, 0.000000),
  (0.793832, 0.98238, 0.000000),
  (0.878655, 0.955552, 0.000000),
  (0.951162, 0.915175, 0.000000),
  (1.01416, 0.868934, 0.000000),
  (1.0743, 0.825623, 0.000000),
  (1.11852, 0.777405, 0.000000),
  (1.1343, 0.720353, 0.000000),
  (1.12399, 0.658341, 0.000000),
  (1.0891, 0.593878, 0.000000),
  (1.03048, 0.527963, 0.000000),
  (0.95074, 0.461834, 0.000000),
  (0.856297, 0.398057, 0.000000),
  (0.75493, 0.339554, 0.000000),
  (0.647467, 0.283493, 0.000000),
  (0.53511, 0.228254, 0.000000),
  (0.431567, 0.179828, 0.000000),
  (0.34369, 0.140211, 0.000000),
  (0.268329, 0.107633, 0.000000),
  (0.2043, 0.081187, 0.000000),
  (0.152568, 0.060281, 0.000000),
  (0.11221, 0.044096, 0.000000),
  (0.081261, 0.0318, 0.000000),
  (0.05793, 0.022602, 0.000000),
  (0.040851, 0.015905, 0.000000),
  (0.028623, 0.01113, 0.000000),
  (0.019941, 0.007749, 0.000000),
  (0.013842, 0.005375, 0.000000),
  (0.009577, 0.003718, 0.000000),
  (0.006605, 0.002565, 0.000000),
  (0.004553, 0.001768, 0.000000),
  (0.003145, 0.001222, 0.000000),
  (0.002175, 0.000846, 0.000000),
  (0.001506, 0.000586, 0.000000),
  (0.001045, 0.000407, 0.000000),
  (0.000727, 0.000284, 0.000000),
  (0.000508, 0.000199, 0.000000),
  (0.000356, 0.00014, 0.000000),
  (0.000251, 0.000098, 0.000000),
  (0.000178, 0.00007, 0.000000),
  (0.000126, 0.00005, 0.000000),
  (0.00009, 0.000036, 0.000000),
  (0.000065, 0.000025, 0.000000),
  (0.000046, 0.000018, 0.000000),
  (0.000033, 0.000013, 0.000000)]

/-- Model of `spectrum.rs::wavelength_to_XYZ`.  Wavelengths outside
[380, 780] yield black; an exact multiple of 5 nm (the f32 `% 5.0 == 0.0`
check) is a direct table lookup; otherwise the value is built from the two
neighbouring entries with the weights exactly as the source writes them:
`value_lower * fract + value_upper * (1 - fract)`. -/
def wavelength_to_XYZ (wavelength : ℚ) : ℚ × ℚ × ℚ :=
  if wavelength < 380 ∨ 780 < wavelength then (0, 0, 0)
  else if wavelength / 5 = ((⌊wavelength / 5⌋ : ℤ) : ℚ) then
    WAVELENGTH_TO_XYZ_TABLE.getD (((⌊wavelength⌋).toNat - 380) / 5) (0, 0, 0)
  else
    let w_adjusted := (wavelength - 380) / 5
    let index_lower := (⌊w_adjusted⌋).toNat
    let index_upper := index_lower + 1
    let value_lower := WAVELENGTH_TO_XYZ_TABLE.getD index_lower (0, 0, 0)
    let value_upper := WAVELENGTH_TO_XYZ_TABLE.getD index_upper (0, 0, 0)
    let fract := w_adjusted - (⌊w_adjusted⌋ : ℚ)
    let fract_inv := 1 - fract
    (value_lower.1 * fract + value_upper.1 * fract_inv,
     value_lower.2.1 * fract + value_upper.2.1 * fract_inv,
     value_lower.2.2 * fract + value_upper.2.2 * fract_inv)

end SpectrumModel

namespace ShaderModel

/-- An f32 value as the slab test needs it: a finite rational, one of the two
infinities (the source seeds the interval with `f32::NEG_INFINITY` /
`f32::INFINITY` and divides by possibly-zero direction components), or NaN
(`0 * ∞`). -/
inductive F where
  | nan : F
  | ninf : F
  | pinf : F
  | fin : ℚ → F
deriving DecidableEq, Repr

/-- IEEE `max` as Rust `f32::max` behaves: NaN operands are ignored. -/
def fmax : F → F → F
  | F.nan, b => b
  | a, F.nan => a
  | F.ninf, b => b
  | a, F.ninf => a
  | F.pinf, _ => F.pinf
  | _, F.pinf => F.pinf
  | F.fin a, F.fin b => F.fin (max a b)

/-- IEEE `min` as Rust `f32::min` behaves: NaN operands are ignored. -/
def fmin : F → F → F
  | F.nan, b => b
  | a, F.nan => a
  | F.pinf, b => b
  | a, F.pinf => a
  | F.ninf, _ => F.ninf
  | _, F.ninf => F.ninf
  | F.fin a, F.fin b => F.fin (min a b)

/-- IEEE `≤`: any comparison against NaN is false. -/
def fle : F → F → Bool
  | F.nan, _ => false
  | _, F.nan => false
  | F.ninf, _ => true
  | _, F.ninf => false
  | _, F.pinf => true
  | F.pinf, _ => false
  | F.fin a, F.fin b => decide (a ≤ b)

/-- IEEE `<`: any comparison against NaN is false. -/
def flt : F → F → Bool
  | F.nan, _ => false
  | _, F.nan => false
  | F.ninf, F.ninf => false
  | F.ninf, _ => true
  | _, F.ninf => false
  | F.pinf, _ => false
  | _, F.pinf => true
  | F.fin a, F.fin b => decide (a < b)

/-- IEEE product of a finite value with an `F` value (`0 * ±∞ = NaN`). -/
def fmulQ (a : ℚ) : F → F
  | F.nan => F.nan
  | F.pinf => if 0 < a then F.pinf else if a < 0 then F.ninf else F.nan
  | F.ninf => if 0 < a then F.ninf else if a < 0 then F.pinf else F.nan
  | F.fin b => F.fin (a * b)

/-- `1.0 / d` for a direction component: a nonzero component gives the finite
reciprocal; a zero component gives `+∞` (f32 `1.0 / 0.0`). -/
def invDir (d : ℚ) : F :=
  if d = 0 then F.pinf else F.fin (1 / d)

/-- A 3-component f32 vector / point. -/
structure Vec3 where
  x : ℚ
  y : ℚ
  z : ℚ
deriving DecidableEq, Repr

/-- One iteration of the slab loop of `shader.rs::ray_aabb_intersection` for a
single axis (origin component `o`, direction component `d`, box corner
components `bmin`, `bmax`): computes the near/far distances, swaps them for a
negative inverse direction, narrows the running interval, and early-returns
`None` when `t_max <= t_min`. -/
def axisStep (o d bmin bmax : ℚ) (st : F × F) : Option (F × F) :=
  let inverse_direction := invDir d
  let t1 := fmulQ (bmin - o) inverse_direction
  let t2 := fmulQ (bmax - o) inverse_direction
  let tnf := if flt inverse_direction (F.fin 0) then (t2, t1) else (t1, t2)
  let t_min := fmax st.1 tnf.1
  let t_max := fmin st.2 tnf.2
  if fle t_max t_min then none else some (t_min, t_max)

/-- The three chained axis iterations of `ray_aabb_intersection`, without the
final `t_max < 0` rejection. -/
def slabStates (ray_origin ray_direction point_min point_max : Vec3) :
    Option (F × F) :=
  match axisStep ray_origin.x ray_direction.x point_min.x point_max.x
      (F.ninf, F.pinf) with
  | none => none
  | some s1 =>
    match axisStep ray_origin.y ray_direction.y point_min.y point_max.y s1 with
    | none => none
    | some s2 =>
      axisStep ray_origin.z ray_direction.z point_min.z point_max.z s2

/-- Model of `shader.rs::ray_aabb_intersection`: the slab loop over the three
axes followed by the `t_max < 0` rejection. -/
def ray_aabb_intersection (ray_origin ray_direction point_min point_max : Vec3) :
    Option (F × F) :=
  match slabStates ray_origin ray_direction point_min point_max with
  | none => none
  | some st => if flt st.2 (F.fin 0) then none else some st

/-- Outcome of `intersection_shader` on a `PlainBox`: either the `.unwrap()`
panicked, or the branch produced its `Some(t)` value. -/
inductive ShaderOutcome where
  | panicked : ShaderOutcome
  | value : F → ShaderOutcome
deriving DecidableEq, Repr

/-- Model of the `AABBType::PlainBox` branch of `shader.rs::intersection_shader`:
it re-runs `ray_aabb_intersection` on the same ray and box and `.unwrap()`s the
result (panicking on `None`), then returns `Some(min)` when `min >= 0` and
`Some(max)` otherwise. -/
def intersection_shader_plainBox (ray_origin ray_direction point_min point_max :
    Vec3) : ShaderOutcome :=
  match ray_aabb_intersection ray_origin ray_direction point_min point_max with
  | none => ShaderOutcome.panicked
  | some (t1, t2) =>
    let m := fmin t1 t2
    if fle (F.fin 0) m then ShaderOutcome.value m
    else ShaderOutcome.value (fmax t1 t2)

/-- Model of `shader.rs::random_pcg3d` on u32 values (wrapping arithmetic mod
2^32), ending with the conversion to three rationals in place of the three
f32 results. -/
def random_pcg3d (x0 y0 z0 : ℕ) : ℚ × ℚ × ℚ :=
  let M := 2 ^ 32
  let x1 := (x0 * 1664525 + 1013904223) % M
  let y1 := (y0 * 1664525 + 1013904223) % M
  let z1 := (z0 * 1664525 + 1013904223) % M
  let x2 := (x1 + y1 * z1) % M
  let y2 := (y1 + z1 * x2) % M
  let z2 := (z1 + x2 * y2) % M
  let x3 := Nat.xor x2 (x2 >>> 16)
  let y3 := Nat.xor y2 (y2 >>> 16)
  let z3 := Nat.xor z2 (z2 >>> 16)
  let x4 := (x3 + y3 * z3) % M
  let y4 := (y3 + z3 * x4) % M
  let z4 := (z3 + x4 * y4) % M
  let reciprocal : ℚ := 1 / 4294967295
  ((x4 : ℚ) * reciprocal, (y4 : ℚ) * reciprocal, (z4 : ℚ) * reciprocal)

/-- Specification predicate: an `F` value that is `-∞` or finite negative
(the shape of the running `t_min` when the origin is inside the box). -/
def NegOrNinf (t : F) : Prop := t = F.ninf ∨ ∃ q : ℚ, q < 0 ∧ t = F.fin q

/-- Specification predicate: an `F` value that is `+∞` or finite positive
(the shape of the running `t_max` when the origin is inside the box). -/
def PosOrPinf (t : F) : Prop := t = F.pinf ∨ ∃ q : ℚ, 0 < q ∧ t = F.fin q

/-- Specification predicate: a finite negative `F` value. -/
def IsFinNeg (t : F) : Prop := ∃ q : ℚ, q < 0 ∧ t = F.fin q

/-- Specification predicate: a finite positive `F` value. -/
def IsFinPos (t : F) : Prop := ∃ q : ℚ, 0 < q ∧ t = F.fin q

end ShaderModel

section Claims

open CustomImageModel SpectrumModel ShaderModel

/-- Helper: reading a just-written index of a list. -/
lemma getD_set_self (l : List ℚ) (i : ℕ) (v : ℚ) (h : i < l.length) :
    (l.set i v).getD i 0 = v := by
  simp [List.getD_eq_getElem?_getD, List.getElem?_set_eq_of_lt v h]

/-- Helper: writing one index of a list leaves the others unchanged. -/
lemma getD_set_ne (l : List ℚ) {i j : ℕ} (v : ℚ) (h : i ≠ j) :
    (l.set i v).getD j 0 = l.getD j 0 := by
  simp [List.getD_eq_getElem?_getD, List.getElem?_set_ne h]

/-- C1 counterexample: the claim states every element-wise binary operator
fails whenever the operands differ in wavelength bounds.  Here two flat
spectra share the sample count 8 but have different bounds (380–780 versus
400–700), and `+=` still computes a result instead of failing. -/
theorem addAssign_accepts_mismatched_bounds :
    (Spectrum.new_singular_reflectance_factor 380 780 8 0).lower_wavelength ≠
      (Spectrum.new_singular_reflectance_factor 400 700 8 0).lower_wavelength ∧
    (Spectrum.new_singular_reflectance_factor 380 780 8 0).addAssign
      (Spectrum.new_singular_reflectance_factor 400 700 8 0) ≠ none := by
  decide

/-- C1 amended: each element-wise binary operator on two SPDs (add-assign,
multiply-assign, multiply, divide) fails exactly when the operands differ in
sample count N or N violates the divisible-by-8 or ≤ 128 capacity invariant
(for the assigning operators the capacity violation is the `[f32; 128]`
index-out-of-bounds panic in the loop); the wavelength bounds are never
compared, so a mismatch in bounds alone silently computes a result. -/
theorem spectrum_binary_ops_error_iff (s r : Spectrum) :
    (s.addAssign r = none ↔
      ¬(s.nbr_of_samples = r.nbr_of_samples ∧ s.nbr_of_samples % 8 = 0 ∧
        s.nbr_of_samples ≤ NBR_OF_SAMPLES_MAX)) ∧
    (s.mulAssign r = none ↔
      ¬(s.nbr_of_samples = r.nbr_of_samples ∧ s.nbr_of_samples % 8 = 0 ∧
        s.nbr_of_samples ≤ NBR_OF_SAMPLES_MAX)) ∧
    (s.mulOp r = none ↔
      ¬(s.nbr_of_samples = r.nbr_of_samples ∧ s.nbr_of_samples % 8 = 0 ∧
        s.nbr_of_samples ≤ NBR_OF_SAMPLES_MAX)) ∧
    (s.divOp r = none ↔
      ¬(s.nbr_of_samples = r.nbr_of_samples ∧ s.nbr_of_samples % 8 = 0 ∧
        s.nbr_of_samples ≤ NBR_OF_SAMPLES_MAX)) := by
  refine ⟨?_, ?_, ?_, ?_⟩
  · unfold Spectrum.addAssign
    split
    · rename_i h
      split
      · rename_i h2
        simp only [reduceCtorEq, false_iff, not_not]
        exact ⟨h.1, h.2, h2⟩
      · rename_i h2
        exact iff_of_true rfl fun hc => h2 hc.2.2
    · rename_i h
      exact iff_of_true rfl fun hc => h ⟨hc.1, hc.2.1⟩
  · unfold Spectrum.mulAssign
    split
    · rename_i h
      split
      · rename_i h2
        simp only [reduceCtorEq, false_iff, not_not]
        exact ⟨h.1, h.2, h2⟩
      · rename_i h2
        exact iff_of_true rfl fun hc => h2 hc.2.2
    · rename_i h
      exact iff_of_true rfl fun hc => h ⟨hc.1, hc.2.1⟩
  · unfold Spectrum.mulOp
    split
    · rename_i h; simp only [reduceCtorEq, false_iff, not_not]; exact h
    · rename_i h; simpa using h
  · unfold Spectrum.divOp
    split
    · rename_i h; simp only [reduceCtorEq, false_iff, not_not]; exact h
    · rename_i h; simpa using h

/-- C2: with a perfectly valid call (row length = width = 1, row 0 < height),
`blend_row` panics: it loops `x` up to `size_of::<Pixel>() * width = 16` and
indexes `pixels[x]` past the end of the 1-element row. -/
theorem blend_row_panics_on_valid_input :
    (CustomImage.new 1 1).blend_row [⟨1, 1, 1, 1⟩] 0 (1/2) =
      BlendResult.panicked := by
  decide

/-- C3: down-sampling a valid 64-sample spectrum to the valid target of 8
samples panics instead of terminating normally: the second halving iteration
slices `working_list[0..64]` although the working list now has only 32
entries. -/
theorem resample_64_to_8_panics :
    (Spectrum.new_singular_reflectance_factor 380 780 64 1).resample 8 =
      none := by
  decide

/-- C6: resampling a spectrum (with a valid sample count: >1, ≤128, multiple
of 8) to its current sample count is a no-op, returning the spectrum
bit-identically. -/
theorem resample_same_count_is_noop (s : Spectrum)
    (h1 : 1 < s.nbr_of_samples) (h2 : s.nbr_of_samples ≤ 128)
    (h3 : s.nbr_of_samples % 8 = 0) :
    s.resample s.nbr_of_samples = some s := by
  unfold Spectrum.resample
  rw [if_pos ⟨h1, h2, h3, h3⟩, if_pos rfl]

/-- C6 witness: the no-op at a concrete 8-sample flat spectrum. -/
theorem resample_same_count_is_noop_witness :
    (Spectrum.new_singular_reflectance_factor 380 780 8 1).resample 8 =
      some (Spectrum.new_singular_reflectance_factor 380 780 8 1) :=
  resample_same_count_is_noop (Spectrum.new_singular_reflectance_factor 380 780 8 1)
    (by decide) (by decide) (by decide)

/-- C8: the three-input hash is deterministic and stateless: its output is a
pure function of the three integer inputs, so two calls on equal inputs return
identical float triples. -/
theorem random_pcg3d_deterministic (x y z a b c : ℕ)
    (hx : x = a) (hy : y = b) (hz : z = c) :
    random_pcg3d x y z = random_pcg3d a b c := by
  subst hx; subst hy; subst hz; rfl

/-- C8 witness: determinism instantiated at (7, 11, 13). -/
theorem random_pcg3d_deterministic_witness :
    random_pcg3d 7 11 13 = random_pcg3d 7 11 13 :=
  random_pcg3d_deterministic 7 11 13 7 11 13 rfl rfl rfl

/-- C10: whenever `submit_ray` has seen `ray_aabb_intersection` return `Some`
for a ray and box (the guard under which it calls `intersection_shader`), the
repeated call inside the `PlainBox` branch returns `Some` again (the function
is pure), so its `.unwrap()` cannot panic. -/
theorem plainBox_unwrap_never_panics (o d bmin bmax : Vec3)
    (h : ray_aabb_intersection o d bmin bmax ≠ none) :
    intersection_shader_plainBox o d bmin bmax ≠ ShaderOutcome.panicked := by
  unfold intersection_shader_plainBox
  cases heq : ray_aabb_intersection o d bmin bmax with
  | none => exact absurd heq h
  | some st =>
    cases st with
    | mk t1 t2 =>
      dsimp only
      split <;> simp

/-- C10 witness: a ray from the origin along +x against the unit-radius box. -/
theorem plainBox_unwrap_never_panics_witness :
    intersection_shader_plainBox ⟨0, 0, 0⟩ ⟨1, 0, 0⟩ ⟨-1, -1, -1⟩ ⟨1, 1, 1⟩ ≠
      ShaderOutcome.panicked :=
  plainBox_unwrap_never_panics ⟨0, 0, 0⟩ ⟨1, 0, 0⟩ ⟨-1, -1, -1⟩ ⟨1, 1, 1⟩
    (by norm_num [ray_aabb_intersection, slabStates, axisStep, invDir, fmulQ,
      fmax, fmin, fle, flt, Option.some_ne_none])

/-- C7: for an in-bounds pixel of a consistent image, `blend_pixel` succeeds
and sets each of the four channels to `old*(1-w) + new*w`; with weight 1 the
pixel becomes exactly the new color and with weight 0 the old values are kept;
an out-of-bounds x or y yields the out-of-bounds error. -/
theorem blend_pixel_blends_channels (img : CustomImage) (x y : ℕ) (p : Pixel)
    (w : ℚ) (hinv : 4 * img.width * img.height = img.data.length) :
    (x < img.width → y < img.height →
      img.blend_pixel x y p w =
        BlendResult.ok (resultImage (img.blend_pixel x y p w)) ∧
      (resultImage (img.blend_pixel x y p w)).data.getD
          (y * (4 * img.width) + x * 4) 0 =
        img.data.getD (y * (4 * img.width) + x * 4) 0 * (1 - w) + p.r * w ∧
      (resultImage (img.blend_pixel x y p w)).data.getD
          (y * (4 * img.width) + x * 4 + 1) 0 =
        img.data.getD (y * (4 * img.width) + x * 4 + 1) 0 * (1 - w) + p.g * w ∧
      (resultImage (img.blend_pixel x y p w)).data.getD
          (y * (4 * img.width) + x * 4 + 2) 0 =
        img.data.getD (y * (4 * img.width) + x * 4 + 2) 0 * (1 - w) + p.b * w ∧
      (resultImage (img.blend_pixel x y p w)).data.getD
          (y * (4 * img.width) + x * 4 + 3) 0 =
        img.data.getD (y * (4 * img.width) + x * 4 + 3) 0 * (1 - w) + p.a * w ∧
      (w = 1 →
        (resultImage (img.blend_pixel x y p w)).data.getD
          (y * (4 * img.width) + x * 4) 0 = p.r ∧
        (resultImage (img.blend_pixel x y p w)).data.getD
          (y * (4 * img.width) + x * 4 + 1) 0 = p.g ∧
        (resultImage (img.blend_pixel x y p w)).data.getD
          (y * (4 * img.width) + x * 4 + 2) 0 = p.b ∧
        (resultImage (img.blend_pixel x y p w)).data.getD
          (y * (4 * img.width) + x * 4 + 3) 0 = p.a) ∧
      (w = 0 →
        (resultImage (img.blend_pixel x y p w)).data.getD
          (y * (4 * img.width) + x * 4) 0 =
          img.data.getD (y * (4 * img.width) + x * 4) 0 ∧
        (resultImage (img.blend_pixel x y p w)).data.getD
          (y * (4 * img.width) + x * 4 + 1) 0 =
          img.data.getD (y * (4 * img.width) + x * 4 + 1) 0 ∧
        (resultImage (img.blend_pixel x y p w)).data.getD
          (y * (4 * img.width) + x * 4 + 2) 0 =
          img.data.getD (y * (4 * img.width) + x * 4 + 2) 0 ∧
        (resultImage (img.blend_pixel x y p w)).data.getD
          (y * (4 * img.width) + x * 4 + 3) 0 =
          img.data.getD (y * (4 * img.width) + x * 4 + 3) 0)) ∧
    (img.width ≤ x ∨ img.height ≤ y →
      img.blend_pixel x y p w = BlendResult.errored img) := by
  constructor
  · intro hx hy
    have key : y * (4 * img.width) + x * 4 + 4 ≤ img.data.length := by
      rw [← hinv]
      calc y * (4 * img.width) + x * 4 + 4
          = y * (4 * img.width) + (x * 4 + 4) := by ring
        _ ≤ y * (4 * img.width) + 4 * img.width := by
            refine Nat.add_le_add_left ?_ _
            omega
        _ = (y + 1) * (4 * img.width) := by ring
        _ ≤ img.height * (4 * img.width) := Nat.mul_le_mul_right _ (by omega)
        _ = 4 * img.width * img.height := by ring
    simp only [CustomImage.blend_pixel]
    rw [if_neg (not_not.mpr hinv),
      if_neg (not_or.mpr ⟨not_le.mpr hx, not_le.mpr hy⟩)]
    set A := y * (4 * img.width) + x * 4 with hA
    have hA0 : A < img.data.length := by omega
    have hA1 : A + 1 < img.data.length := by omega
    have hA2 : A + 2 < img.data.length := by omega
    have hA3 : A + 3 < img.data.length := by omega
    have e01 : A ≠ A + 1 := by omega
    have e02 : A ≠ A + 2 := by omega
    have e03 : A ≠ A + 3 := by omega
    have e10 : A + 1 ≠ A := by omega
    have e12 : A + 1 ≠ A + 2 := by omega
    have e13 : A + 1 ≠ A + 3 := by omega
    have e20 : A + 2 ≠ A := by omega
    have e21 : A + 2 ≠ A + 1 := by omega
    have e23 : A + 2 ≠ A + 3 := by omega
    have e30 : A + 3 ≠ A := by omega
    have e31 : A + 3 ≠ A + 1 := by omega
    have e32 : A + 3 ≠ A + 2 := by omega
    simp only [resultImage, getD_set_self, getD_set_ne, List.length_set,
      hA0, hA1, hA2, hA3, e01, e02, e03, e10, e12, e13, e20, e21, e23, e30,
      e31, e32, ne_eq, not_false_eq_true]
    refine ⟨trivial, trivial, trivial, trivial, trivial, ?_, ?_⟩
    · rintro rfl
      refine ⟨by ring, by ring, by ring, by ring⟩
    · rintro rfl
      refine ⟨by ring, by ring, by ring, by ring⟩
  · intro hxy
    simp only [CustomImage.blend_pixel]
    rw [if_neg (not_not.mpr hinv), if_pos hxy]

/-- C7 witness: out-of-bounds x on a 1x1 image errors; pixel (0,0) of a
consistent 2x1 image blends successfully. -/
theorem blend_pixel_blends_channels_witness :
    (CustomImage.mk 1 1 (List.replicate 4 0)).blend_pixel 7 0 ⟨1, 2, 3, 4⟩ (1/2) =
      BlendResult.errored (CustomImage.mk 1 1 (List.replicate 4 0)) ∧
    (CustomImage.mk 2 1 (List.replicate 8 0)).blend_pixel 0 0 ⟨9, 8, 7, 6⟩ 1 =
      BlendResult.ok (resultImage
        ((CustomImage.mk 2 1 (List.replicate 8 0)).blend_pixel 0 0 ⟨9, 8, 7, 6⟩ 1)) :=
  ⟨(blend_pixel_blends_channels (CustomImage.mk 1 1 (List.replicate 4 0))
      7 0 ⟨1, 2, 3, 4⟩ (1/2) (by decide)).2 (Or.inl (by decide)),
   ((blend_pixel_blends_channels (CustomImage.mk 2 1 (List.replicate 8 0))
      0 0 ⟨9, 8, 7, 6⟩ 1 (by decide)).1 (by decide) (by decide)).1⟩

/-- C9: a successful `blend_pixel` changes only the four channel entries of
the addressed pixel — width, height, buffer length and every other buffer
entry are unchanged — and a returned error leaves the image exactly as it
was. -/
theorem blend_pixel_frame (img : CustomImage) (x y : ℕ) (p : Pixel) (w : ℚ) :
    (∀ img2, img.blend_pixel x y p w = BlendResult.ok img2 →
      img2.width = img.width ∧ img2.height = img.height ∧
      img2.data.length = img.data.length ∧
      ∀ j, j ≠ y * (4 * img.width) + x * 4 →
        j ≠ y * (4 * img.width) + x * 4 + 1 →
        j ≠ y * (4 * img.width) + x * 4 + 2 →
        j ≠ y * (4 * img.width) + x * 4 + 3 →
        img2.data[j]? = img.data[j]?) ∧
    (∀ img2, img.blend_pixel x y p w = BlendResult.errored img2 →
      img2 = img) := by
  constructor
  · intro img2 h
    simp only [CustomImage.blend_pixel] at h
    by_cases hc1 : 4 * img.width * img.height ≠ img.data.length
    · rw [if_pos hc1] at h; exact absurd h (by simp)
    · rw [if_neg hc1] at h
      by_cases hc2 : x ≥ img.width ∨ y ≥ img.height
      · rw [if_pos hc2] at h; exact absurd h (by simp)
      · rw [if_neg hc2] at h
        injection h with hh
        subst hh
        refine ⟨rfl, rfl, by simp [List.length_set], ?_⟩
        intro j hj0 hj1 hj2 hj3
        show ((((img.data.set _ _).set _ _).set _ _).set _ _)[j]? = img.data[j]?
        rw [List.getElem?_set_ne (Ne.symm hj3), List.getElem?_set_ne (Ne.symm hj2),
          List.getElem?_set_ne (Ne.symm hj1), List.getElem?_set_ne (Ne.symm hj0)]
  · intro img2 h
    simp only [CustomImage.blend_pixel] at h
    by_cases hc1 : 4 * img.width * img.height ≠ img.data.length
    · rw [if_pos hc1] at h; exact absurd h (by simp)
    · rw [if_neg hc1] at h
      by_cases hc2 : x ≥ img.width ∨ y ≥ img.height
      · rw [if_pos hc2] at h
        injection h with hh
        exact hh.symm
      · rw [if_neg hc2] at h; exact absurd h (by simp)

/-- C9 witness: blending pixel (0,0) of a 2x1 image leaves buffer entry 4 (a
channel of the other pixel) unchanged. -/
theorem blend_pixel_frame_witness :
    (resultImage ((CustomImage.mk 2 1 (List.replicate 8 0)).blend_pixel
        0 0 ⟨9, 8, 7, 6⟩ 1)).data[4]? =
      (CustomImage.mk 2 1 (List.replicate 8 0)).data[4]? :=
  ((blend_pixel_frame (CustomImage.mk 2 1 (List.replicate 8 0)) 0 0
      ⟨9, 8, 7, 6⟩ 1).1
    (resultImage ((CustomImage.mk 2 1 (List.replicate 8 0)).blend_pixel
      0 0 ⟨9, 8, 7, 6⟩ 1)) rfl).2.2.2
    4 (by decide) (by decide) (by decide) (by decide)

/-- Helper: an IEEE `≤` between a positive/`+∞` value and a negative/`-∞`
value is false. -/
lemma fle_false_of_pos_neg {a b : F} (ha : PosOrPinf a) (hb : NegOrNinf b) :
    fle a b = false := by
  rcases ha with rfl | ⟨p, hp, rfl⟩ <;> rcases hb with rfl | ⟨q, hq, rfl⟩
  · rfl
  · rfl
  · rfl
  · simp only [fle, decide_eq_false_iff_not, not_le]
    linarith

/-- Helper: `fmax` of two negative-or-`-∞` values is negative-or-`-∞`, and is
finite negative as soon as one operand is. -/
lemma fmax_negOrNinf {a b : F} (ha : NegOrNinf a) (hb : NegOrNinf b) :
    NegOrNinf (fmax a b) ∧ (IsFinNeg a ∨ IsFinNeg b → IsFinNeg (fmax a b)) := by
  rcases ha with rfl | ⟨p, hp, rfl⟩ <;> rcases hb with rfl | ⟨q, hq, rfl⟩
  · exact ⟨Or.inl rfl,
      by rintro (⟨q, hq, h⟩ | ⟨q, hq, h⟩) <;> exact absurd h (by simp)⟩
  · exact ⟨Or.inr ⟨q, hq, rfl⟩, fun _ => ⟨q, hq, rfl⟩⟩
  · exact ⟨Or.inr ⟨p, hp, rfl⟩, fun _ => ⟨p, hp, rfl⟩⟩
  · exact ⟨Or.inr ⟨max p q, max_lt hp hq, rfl⟩,
      fun _ => ⟨max p q, max_lt hp hq, rfl⟩⟩

/-- Helper: `fmin` of two positive-or-`+∞` values is positive-or-`+∞`, and is
finite positive as soon as one operand is. -/
lemma fmin_posOrPinf {a b : F} (ha : PosOrPinf a) (hb : PosOrPinf b) :
    PosOrPinf (fmin a b) ∧ (IsFinPos a ∨ IsFinPos b → IsFinPos (fmin a b)) := by
  rcases ha with rfl | ⟨p, hp, rfl⟩ <;> rcases hb with rfl | ⟨q, hq, rfl⟩
  · exact ⟨Or.inl rfl,
      by rintro (⟨q, hq, h⟩ | ⟨q, hq, h⟩) <;> exact absurd h (by simp)⟩
  · exact ⟨Or.inr ⟨q, hq, rfl⟩, fun _ => ⟨q, hq, rfl⟩⟩
  · exact ⟨Or.inr ⟨p, hp, rfl⟩, fun _ => ⟨p, hp, rfl⟩⟩
  · exact ⟨Or.inr ⟨min p q, lt_min hp hq, rfl⟩,
      fun _ => ⟨min p q, lt_min hp hq, rfl⟩⟩

/-- Helper: `fmax t -∞ = t` for the interval shapes that occur. -/
lemma fmax_ninf_right {t : F} (h : NegOrNinf t) : fmax t F.ninf = t := by
  rcases h with rfl | ⟨q, _, rfl⟩ <;> rfl

/-- Helper: `fmin t +∞ = t` for the interval shapes that occur. -/
lemma fmin_pinf_right {t : F} (h : PosOrPinf t) : fmin t F.pinf = t := by
  rcases h with rfl | ⟨q, _, rfl⟩ <;> rfl

/-- Helper: one slab-loop iteration for an axis whose origin component lies
strictly inside the box never rejects, keeps `t_min` negative (finite or
`-∞`) and `t_max` positive (finite or `+∞`), makes both finite when the
direction component is nonzero, and preserves finiteness. -/
lemma axisStep_inside (o d bmin bmax : ℚ) (h1 : bmin < o) (h2 : o < bmax)
    (tmin tmax : F) (hmin : NegOrNinf tmin) (hmax : PosOrPinf tmax) :
    ∃ tmin2 tmax2,
      axisStep o d bmin bmax (tmin, tmax) = some (tmin2, tmax2) ∧
      NegOrNinf tmin2 ∧ PosOrPinf tmax2 ∧
      (d ≠ 0 → IsFinNeg tmin2 ∧ IsFinPos tmax2) ∧
      (IsFinNeg tmin → IsFinNeg tmin2) ∧
      (IsFinPos tmax → IsFinPos tmax2) := by
  rcases lt_trichotomy d 0 with hd | hd | hd
  · -- negative direction component: `1/d < 0`, the near/far pair is swapped
    have hinv : invDir d = F.fin (1 / d) := by rw [invDir, if_neg (ne_of_lt hd)]
    have hswap : flt (F.fin (1 / d)) (F.fin 0) = true := by
      simp only [flt, decide_eq_true_eq]
      exact one_div_neg.mpr hd
    have hnegval : (bmax - o) * (1 / d) < 0 :=
      mul_neg_of_pos_of_neg (by linarith) (one_div_neg.mpr hd)
    have hposval : 0 < (bmin - o) * (1 / d) :=
      mul_pos_of_neg_of_neg (by linarith) (one_div_neg.mpr hd)
    have hbneg : NegOrNinf (F.fin ((bmax - o) * (1 / d))) := Or.inr ⟨_, hnegval, rfl⟩
    have hbpos : PosOrPinf (F.fin ((bmin - o) * (1 / d))) := Or.inr ⟨_, hposval, rfl⟩
    obtain ⟨hm, hmfin⟩ := fmax_negOrNinf hmin hbneg
    obtain ⟨hM, hMfin⟩ := fmin_posOrPinf hmax hbpos
    refine ⟨fmax tmin (F.fin ((bmax - o) * (1 / d))),
      fmin tmax (F.fin ((bmin - o) * (1 / d))), ?_, hm, hM,
      fun _ => ⟨hmfin (Or.inr ⟨_, hnegval, rfl⟩), hMfin (Or.inr ⟨_, hposval, rfl⟩)⟩,
      fun hf => hmfin (Or.inl hf), fun hf => hMfin (Or.inl hf)⟩
    simp only [axisStep, hinv, hswap, if_true, fmulQ]
    rw [fle_false_of_pos_neg hM hm]
    simp
  · -- zero direction component: `1/0 = +∞`, the axis never narrows the interval
    subst hd
    have hinv : invDir 0 = F.pinf := by rw [invDir, if_pos rfl]
    have hflt : flt F.pinf (F.fin 0) = false := rfl
    have hmul1 : fmulQ (bmin - o) F.pinf = F.ninf := by
      simp only [fmulQ]
      rw [if_neg (by linarith), if_pos (by linarith)]
    have hmul2 : fmulQ (bmax - o) F.pinf = F.pinf := by
      simp only [fmulQ]
      rw [if_pos (by linarith)]
    refine ⟨tmin, tmax, ?_, hmin, hmax,
      fun hd0 => absurd rfl hd0, fun hf => hf, fun hf => hf⟩
    simp only [axisStep, hinv, hflt, Bool.false_eq_true, if_false, hmul1,
      hmul2, fmax_ninf_right hmin, fmin_pinf_right hmax]
    rw [fle_false_of_pos_neg hmax hmin]
    simp
  · -- positive direction component: `1/d > 0`, near/far in source order
    have hinv : invDir d = F.fin (1 / d) := by
      rw [invDir, if_neg (ne_of_gt hd)]
    have hswap : flt (F.fin (1 / d)) (F.fin 0) = false := by
      simp only [flt, decide_eq_false_iff_not, not_lt]
      exact le_of_lt (one_div_pos.mpr hd)
    have hnegval : (bmin - o) * (1 / d) < 0 :=
      mul_neg_of_neg_of_pos (by linarith) (one_div_pos.mpr hd)
    have hposval : 0 < (bmax - o) * (1 / d) :=
      mul_pos (by linarith) (one_div_pos.mpr hd)
    have hbneg : NegOrNinf (F.fin ((bmin - o) * (1 / d))) := Or.inr ⟨_, hnegval, rfl⟩
    have hbpos : PosOrPinf (F.fin ((bmax - o) * (1 / d))) := Or.inr ⟨_, hposval, rfl⟩
    obtain ⟨hm, hmfin⟩ := fmax_negOrNinf hmin hbneg
    obtain ⟨hM, hMfin⟩ := fmin_posOrPinf hmax hbpos
    refine ⟨fmax tmin (F.fin ((bmin - o) * (1 / d))),
      fmin tmax (F.fin ((bmax - o) * (1 / d))), ?_, hm, hM,
      fun _ => ⟨hmfin (Or.inr ⟨_, hnegval, rfl⟩), hMfin (Or.inr ⟨_, hposval, rfl⟩)⟩,
      fun hf => hmfin (Or.inl hf), fun hf => hMfin (Or.inl hf)⟩
    simp only [axisStep, hinv, hswap, Bool.false_eq_true, if_false, fmulQ]
    rw [fle_false_of_pos_neg hM hm]
    simp

/-- C5: a ray whose origin is strictly inside an axis-aligned box (with a
nonzero direction) always hits: the slab test returns `Some (t_min, t_max)`
with finite `t_min < 0 ≤ t_max`; and the test returns `None` only when a
per-axis interval intersection came up empty or when the exit distance of the
surviving interval is negative. -/
theorem ray_aabb_slab_spec :
    (∀ o d bmin bmax : Vec3,
      bmin.x < o.x → o.x < bmax.x → bmin.y < o.y → o.y < bmax.y →
      bmin.z < o.z → o.z < bmax.z → ¬(d.x = 0 ∧ d.y = 0 ∧ d.z = 0) →
      ∃ a b : ℚ,
        ray_aabb_intersection o d bmin bmax = some (F.fin a, F.fin b) ∧
        a < 0 ∧ 0 ≤ b) ∧
    (∀ o d bmin bmax : Vec3, ray_aabb_intersection o d bmin bmax = none →
      slabStates o d bmin bmax = none ∨
      ∃ st, slabStates o d bmin bmax = some st ∧ flt st.2 (F.fin 0) = true) := by
  constructor
  · intro o d bmin bmax hx1 hx2 hy1 hy2 hz1 hz2 hd
    obtain ⟨m1, M1, e1, hm1, hM1, hf1, ht1, hT1⟩ :=
      axisStep_inside o.x d.x bmin.x bmax.x hx1 hx2 F.ninf F.pinf
        (Or.inl rfl) (Or.inl rfl)
    obtain ⟨m2, M2, e2, hm2, hM2, hf2, ht2, hT2⟩ :=
      axisStep_inside o.y d.y bmin.y bmax.y hy1 hy2 m1 M1 hm1 hM1
    obtain ⟨m3, M3, e3, hm3, hM3, hf3, ht3, hT3⟩ :=
      axisStep_inside o.z d.z bmin.z bmax.z hz1 hz2 m2 M2 hm2 hM2
    have hslab : slabStates o d bmin bmax = some (m3, M3) := by
      simp only [slabStates, e1, e2, e3]
    have hfin : IsFinNeg m3 ∧ IsFinPos M3 := by
      by_cases hdx : d.x = 0
      · by_cases hdy : d.y = 0
        · have hdz : d.z ≠ 0 := fun h => hd ⟨hdx, hdy, h⟩
          exact hf3 hdz
        · obtain ⟨a2, b2⟩ := hf2 hdy
          exact ⟨ht3 a2, hT3 b2⟩
      · obtain ⟨a1, b1⟩ := hf1 hdx
        exact ⟨ht3 (ht2 a1), hT3 (hT2 b1)⟩
    obtain ⟨⟨qa, hqa, hma⟩, ⟨qb, hqb, hMb⟩⟩ := hfin
    subst hma
    subst hMb
    refine ⟨qa, qb, ?_, hqa, le_of_lt hqb⟩
    have hflt : flt (F.fin qb) (F.fin 0) = false := by
      simp only [flt, decide_eq_false_iff_not, not_lt]
      exact le_of_lt hqb
    simp only [ray_aabb_intersection, hslab, hflt, Bool.false_eq_true, if_false]
  · intro o d bmin bmax h
    unfold ray_aabb_intersection at h
    cases heq : slabStates o d bmin bmax with
    | none => exact Or.inl rfl
    | some st =>
      simp only [heq] at h
      right
      refine ⟨st, rfl, ?_⟩
      by_contra hcon
      simp [hcon] at h

/-- C5 witness: origin at the center of the unit box with direction (1,2,3)
yields a hit interval straddling zero; an origin at x = 2 shooting away along
+x is rejected because its exit distance is negative. -/
theorem ray_aabb_slab_spec_witness :
    (∃ a b : ℚ,
      ray_aabb_intersection ⟨0, 0, 0⟩ ⟨1, 2, 3⟩ ⟨-1, -1, -1⟩ ⟨1, 1, 1⟩ =
        some (F.fin a, F.fin b) ∧ a < 0 ∧ 0 ≤ b) ∧
    (slabStates ⟨2, 0, 0⟩ ⟨1, 0, 0⟩ ⟨-1, -1, -1⟩ ⟨1, 1, 1⟩ = none ∨
      ∃ st, slabStates ⟨2, 0, 0⟩ ⟨1, 0, 0⟩ ⟨-1, -1, -1⟩ ⟨1, 1, 1⟩ = some st ∧
        flt st.2 (F.fin 0) = true) :=
  ⟨ray_aabb_slab_spec.1 ⟨0, 0, 0⟩ ⟨1, 2, 3⟩ ⟨-1, -1, -1⟩ ⟨1, 1, 1⟩
      (by decide) (by decide) (by decide) (by decide) (by decide) (by decide)
      (by decide),
   ray_aabb_slab_spec.2 ⟨2, 0, 0⟩ ⟨1, 0, 0⟩ ⟨-1, -1, -1⟩ ⟨1, 1, 1⟩
      (by norm_num [ray_aabb_intersection, slabStates, axisStep, invDir,
        fmulQ, fmax, fmin, fle, flt])⟩

/-- C4 counterexample: at wavelength 381.25 nm (strictly between the 380 and
385 table entries, fractional offset 1/4) the lookup does NOT return the
claimed linear interpolation (lower entry weighted by 1 - 1/4, upper entry
weighted by 1/4). -/
theorem wavelength_to_XYZ_claim_counterexample :
    wavelength_to_XYZ (1525/4) ≠
      ((0.00016 : ℚ) * (1 - 1/4) + 0.000662 * (1/4),
       (0.000017 : ℚ) * (1 - 1/4) + 0.000072 * (1/4),
       (0.000705 : ℚ) * (1 - 1/4) + 0.002928 * (1/4)) := by
  have hf76 : ⌊(1525 : ℚ) / 4 / 5⌋ = 76 := by norm_num
  have hf0 : ⌊((1525 : ℚ) / 4 - 380) / 5⌋ = 0 := by norm_num
  have ht0 : WAVELENGTH_TO_XYZ_TABLE[(0 : ℕ)]? =
      some ((0.00016 : ℚ), (0.000017 : ℚ), (0.000705 : ℚ)) := rfl
  have ht1 : WAVELENGTH_TO_XYZ_TABLE[(1 : ℕ)]? =
      some ((0.000662 : ℚ), (0.000072 : ℚ), (0.002928 : ℚ)) := rfl
  simp only [wavelength_to_XYZ, hf76, hf0]
  norm_num [Prod.ext_iff, ht0, ht1, Option.getD_some]

/-- C4 amended: strictly between two adjacent 5 nm entries the lookup returns
the two entries combined with SWAPPED weights — the entry at the lower
wavelength is weighted by the fractional offset and the entry at the upper
wavelength by one minus the fractional offset; outside [380, 780] it returns
(0, 0, 0). -/
theorem wavelength_to_XYZ_swapped_interpolation :
    (∀ i : ℕ, i < 80 → ∀ t : ℚ, 0 < t → t < 1 →
      wavelength_to_XYZ (380 + 5 * ((i : ℚ) + t)) =
        ((WAVELENGTH_TO_XYZ_TABLE.getD i (0, 0, 0)).1 * t +
           (WAVELENGTH_TO_XYZ_TABLE.getD (i + 1) (0, 0, 0)).1 * (1 - t),
         (WAVELENGTH_TO_XYZ_TABLE.getD i (0, 0, 0)).2.1 * t +
           (WAVELENGTH_TO_XYZ_TABLE.getD (i + 1) (0, 0, 0)).2.1 * (1 - t),
         (WAVELENGTH_TO_XYZ_TABLE.getD i (0, 0, 0)).2.2 * t +
           (WAVELENGTH_TO_XYZ_TABLE.getD (i + 1) (0, 0, 0)).2.2 * (1 - t))) ∧
    (∀ w : ℚ, w < 380 ∨ 780 < w → wavelength_to_XYZ w = (0, 0, 0)) := by
  constructor
  · intro i hi t ht0 ht1
    have hcast : ((i : ℚ)) ≤ 79 := by exact_mod_cast Nat.le_of_lt_succ hi
    have hicast : (0 : ℚ) ≤ (i : ℚ) := Nat.cast_nonneg i
    have htf : ⌊t⌋ = 0 :=
      Int.floor_eq_zero_iff.mpr (Set.mem_Ico.mpr ⟨le_of_lt ht0, ht1⟩)
    have hrange : ¬((380 : ℚ) + 5 * ((i : ℚ) + t) < 380 ∨
        (780 : ℚ) < 380 + 5 * ((i : ℚ) + t)) := by
      push_neg
      constructor
      · linarith
      · linarith
    have hdiv5 : ((380 : ℚ) + 5 * ((i : ℚ) + t)) / 5 = ((76 + i : ℕ) : ℚ) + t := by
      push_cast
      ring
    have hfloor5 : ⌊((380 : ℚ) + 5 * ((i : ℚ) + t)) / 5⌋ = ((76 + i : ℕ) : ℤ) := by
      rw [hdiv5, Int.floor_nat_add, htf, add_zero]
    have hnotint : ¬(((380 : ℚ) + 5 * ((i : ℚ) + t)) / 5 =
        ((⌊((380 : ℚ) + 5 * ((i : ℚ) + t)) / 5⌋ : ℤ) : ℚ)) := by
      rw [hfloor5, hdiv5]
      push_cast
      intro heq
      have : t = 0 := by linarith
      exact absurd this (ne_of_gt ht0)
    have hwadj : ((380 : ℚ) + 5 * ((i : ℚ) + t) - 380) / 5 = (i : ℚ) + t := by
      ring
    have hfloorw : ⌊(i : ℚ) + t⌋ = (i : ℤ) := by
      rw [Int.floor_nat_add, htf, add_zero]
    have hfr : (i : ℚ) + t - ((i : ℤ) : ℚ) = t := by
      push_cast
      ring
    simp only [wavelength_to_XYZ]
    rw [if_neg hrange, if_neg hnotint, hwadj, hfloorw, Int.toNat_natCast, hfr]
  · intro w hw
    simp only [wavelength_to_XYZ]
    rw [if_pos hw]

/-- C4 witness: the swapped interpolation at i = 0, t = 1/4 (381.25 nm) and
the zero result at the out-of-range wavelength 100 nm. -/
theorem wavelength_to_XYZ_swapped_interpolation_witness :
    wavelength_to_XYZ (380 + 5 * (((0 : ℕ) : ℚ) + 1/4)) =
      ((WAVELENGTH_TO_XYZ_TABLE.getD 0 (0, 0, 0)).1 * (1/4) +
         (WAVELENGTH_TO_XYZ_TABLE.getD (0 + 1) (0, 0, 0)).1 * (1 - 1/4),
       (WAVELENGTH_TO_XYZ_TABLE.getD 0 (0, 0, 0)).2.1 * (1/4) +
         (WAVELENGTH_TO_XYZ_TABLE.getD (0 + 1) (0, 0, 0)).2.1 * (1 - 1/4),
       (WAVELENGTH_TO_XYZ_TABLE.getD 0 (0, 0, 0)).2.2 * (1/4) +
         (WAVELENGTH_TO_XYZ_TABLE.getD (0 + 1) (0, 0, 0)).2.2 * (1 - 1/4)) ∧
    wavelength_to_XYZ 100 = (0, 0, 0) :=
  ⟨wavelength_to_XYZ_swapped_interpolation.1 0 (by decide) (1/4)
      (by norm_num) (by norm_num),
   wavelength_to_XYZ_swapped_interpolation.2 100 (Or.inl (by norm_num))⟩

end Claims
